import Mathlib

/-!
Shallow embedding of `crates/puffin-resolver/src/error.rs`: the resolver's
error taxonomy (`ResolveError`), the `NoSolutionError` wrapper around a
PubGrub derivation tree, the conversion from `PubGrubError`, and the
post-hoc enrichment operations (`with_available_versions`, `with_selector`,
`with_python_requirement`).

Types that live in collaborating crates outside `src/` (package names,
versions, distributions, the Python requirement, the candidate selector,
the version map, the derivation tree from the pubgrub library) are modelled
from the specification, as noted on each definition.
-/

set_option autoImplicit false

namespace PuffinResolver

/-- Modelled from the spec: a normalized package name (from the
`puffin_normalize` crate, not under `src/`); identity only. -/
abbrev PackageName := String

/-- Modelled from the spec: a PEP 440 version (from the `pep440_rs`
library); the core treats version comparison as primitive, and the error
code only clones, collects and displays versions, so the rendered form
suffices as identity. -/
abbrev Version := String

/-- Modelled from the spec: a direct artifact URL (from the `url` library),
identified by its rendered form. -/
abbrev Url := String

/-- Modelled from the spec: a parsed requirement (from the `pep508_rs`
library), identified by its rendered form. -/
abbrev Requirement := String

/-- Modelled from the spec: a version specifier (from the `pep440_rs`
library), identified by its rendered form. -/
abbrev VersionSpecifier := String

/-- Modelled from the spec: an extra (optional-dependency qualifier). -/
abbrev ExtraName := String

/-- The two virtual interpreter packages: the installed interpreter and the
declared minimum/target interpreter (`PubGrubPython` in `crate::pubgrub`,
not under `src/`; modelled from the spec's two virtual singleton
packages). -/
inductive PubGrubPython where
  | installed
  | target
deriving DecidableEq, Repr

/-- Package identity (`PubGrubPackage` in `crate::pubgrub`, not under
`src/`; modelled from the spec): the synthetic root, a virtual interpreter
package, or a real named package optionally qualified by an extra and
pinned to a direct URL. -/
inductive PubGrubPackage where
  | root (version : Option Version)
  | python (py : PubGrubPython)
  | package (name : PackageName) (extra : Option ExtraName) (url : Option Url)
deriving DecidableEq, Repr

/-- Modelled from the spec: the display of a package names the package
(virtual packages render as the interpreter; named packages render their
name, with the extra qualifier when present). -/
def PubGrubPackage.display : PubGrubPackage → String
  | .root _ => "root"
  | .python .installed => "the current Python"
  | .python .target => "the requested Python"
  | .package name none _ => name
  | .package name (some extra) _ => name ++ "[" ++ extra ++ "]"

/-- Modelled from the spec: a version range is an ordered, possibly-disjoint
set of intervals over versions; the error code never inspects ranges, only
stores and displays them. -/
abbrev VersionRange := List (Option Version × Option Version)

/-- An external incompatibility: a leaf of the derivation tree (pubgrub's
`External`, from the pubgrub library; modelled from the spec: "leaves are
external incompatibilities (package + range + why)"). -/
inductive ExtIncompat where
  | notRoot (pkg : PubGrubPackage) (version : Version)
  | noVersions (pkg : PubGrubPackage) (range : VersionRange)
  | unavailableDependencies (pkg : PubGrubPackage) (range : VersionRange)
  | fromDependencyOf (pkg : PubGrubPackage) (range : VersionRange)
      (dependent : PubGrubPackage) (dependentRange : VersionRange)
deriving DecidableEq, Repr

/-- The derivation tree (pubgrub's `DerivationTree`, from the pubgrub
library; modelled from the spec): a binary tree whose leaves are external
incompatibilities and whose internal nodes are incompatibilities (term
maps) derived from exactly two children. -/
inductive DerivationTree where
  | leafExt (incompat : ExtIncompat)
  | derived (terms : List (PubGrubPackage × VersionRange))
      (cause1 : DerivationTree) (cause2 : DerivationTree)
deriving DecidableEq, Repr

/-- The packages mentioned by one external incompatibility. -/
def ExtIncompat.packages : ExtIncompat → List PubGrubPackage
  | .notRoot pkg _ => [pkg]
  | .noVersions pkg _ => [pkg]
  | .unavailableDependencies pkg _ => [pkg]
  | .fromDependencyOf pkg _ dependent _ => [pkg, dependent]

/-- All packages occurring in the derivation tree (pubgrub's
`DerivationTree::packages`, which collects the packages of every node into
a set; we return the collection as a list — the map construction below is
insensitive to duplicates and order). -/
def DerivationTree.packages : DerivationTree → List PubGrubPackage
  | .leafExt incompat => incompat.packages
  | .derived terms cause1 cause2 =>
      terms.map Prod.fst ++ cause1.packages ++ cause2.packages

/-- Modelled from the spec: a candidate artifact descriptor held by the
version map (built or source artifact); the error code never inspects it. -/
abbrev DistFile := String

/-- Modelled from the spec: `VersionMap` (in `crate::version_map`, not
under `src/`) is an ordered mapping from version to candidate artifact
descriptor; `iter` yields its entries in order. -/
abbrev VersionMap := List (Version × DistFile)

/-- Modelled from the spec: the concurrent memoized index
(`OnceMap<PackageName, VersionMap>` from the `once_map` crate, not under
`src/`), observed through `get` only; ready entries as an association
list. -/
abbrev PackageVersionsIndex := List (PackageName × VersionMap)

/-- Lookup of a ready entry in the memoized index (`OnceMap::get`). -/
def onceMapGet : PackageVersionsIndex → PackageName → Option VersionMap
  | [], _ => none
  | entry :: rest, name =>
      if entry.1 = name then some entry.2 else onceMapGet rest name

/-- Modelled from the spec: the visited set (a concurrent `DashSet` of
package names), observed through membership only. -/
abbrev VisitedSet := List PackageName

/-- Modelled from the spec: the immutable Python/environment requirement
(`PythonRequirement` in `crate::python_requirement`, not under `src/`), a
pair of the installed and the target interpreter version, with accessors
`installed` and `target`. -/
structure PythonRequirement where
  installed : Version
  target : Version
deriving DecidableEq, Repr

/-- Modelled from the spec: pre-release acceptance mode of the candidate
selector. -/
inductive PreReleaseMode where
  | disallow
  | ifNecessary
  | allow
deriving DecidableEq, Repr

/-- Modelled from the spec: resolution direction of the candidate
selector (newest-first default, lowest-compatible supported). -/
inductive ResolutionDirection where
  | highestFirst
  | lowestFirst
deriving DecidableEq, Repr

/-- Modelled from the spec: the candidate selector's per-resolution policy
state (`CandidateSelector` in `crate::candidate_selector`, not under
`src/`): pre-release acceptance mode and resolution direction; immutable,
and the error code only stores it and derives hints from its policy. -/
structure CandidateSelector where
  prereleaseMode : PreReleaseMode
  direction : ResolutionDirection
deriving DecidableEq, Repr

/-- The insertion-ordered map from package to the set of available versions
(`IndexMap<PubGrubPackage, BTreeSet<Version>>`); `BTreeSet<Version>` is
represented by the list of collected versions (the sources of the sets are
a singleton or the ordered distinct keys of a `VersionMap`). -/
abbrev AvailableVersions := List (PubGrubPackage × List Version)

/-- Insertion-ordered map insert (`IndexMap::insert`): replace the value in
place when the key is present, append otherwise. -/
def indexMapInsert : AvailableVersions → PubGrubPackage → List Version →
    AvailableVersions
  | [], key, value => [(key, value)]
  | entry :: rest, key, value =>
      if entry.1 = key then (key, value) :: rest
      else entry :: indexMapInsert rest key value

/-- Insertion-ordered map lookup (`IndexMap::get`). -/
def indexMapGet : AvailableVersions → PubGrubPackage → Option (List Version)
  | [], _ => none
  | entry :: rest, key =>
      if entry.1 = key then some entry.2 else indexMapGet rest key

/-- `NoSolutionError` (error.rs lines 131–137): a wrapper around pubgrub's
`NoSolution` derivation tree, enriched post hoc with the visited available
versions, the candidate selector and the Python requirement. -/
structure NoSolutionError where
  derivation_tree : DerivationTree
  available_versions : AvailableVersions
  selector : Option CandidateSelector
  python_requirement : Option PythonRequirement
deriving DecidableEq, Repr

/-- Modelled from the spec: display of a built distribution (from the
`distribution_types` crate, not under `src/`), its rendered artifact
identity. -/
structure BuiltDist where
  display : String
deriving DecidableEq, Repr

/-- Modelled from the spec: display of a source distribution, its rendered
artifact identity. -/
structure SourceDist where
  display : String
deriving DecidableEq, Repr

/-- Modelled from the spec: a built distribution at a local path. -/
structure PathBuiltDist where
  display : String
deriving DecidableEq, Repr

/-- Modelled from the spec: a source distribution at a local path. -/
structure PathSourceDist where
  display : String
deriving DecidableEq, Repr

/-- Modelled from the spec: an error of the fetch/distribution collaborator
(`puffin_distribution::Error`), surfaced as-is. -/
abbrev DistError := String

/-- Modelled from the spec: an error of the index client
(`puffin_client::Error`), transparent. -/
abbrev ClientError := String

/-- Modelled from the spec: a channel send error, transparent. -/
abbrev SendError := String

/-- Modelled from the spec: a task join error, transparent. -/
abbrev JoinError := String

/-- Modelled from the spec: an error of the `distribution_types` crate,
transparent. -/
abbrev DistTypeError := String

/-- The resolver's error taxonomy (`ResolveError`, error.rs lines 22–89),
one constructor per variant, in source order. -/
inductive ResolveError where
  | notFound (requirement : Requirement)
  | streamTermination
  | client (inner : ClientError)
  | trySend (inner : SendError)
  | join (inner : JoinError)
  | unregistered
  | nameMismatch (given : PackageName) (metadata : PackageName)
  | invalidTildeEquals (specifier : VersionSpecifier)
  | conflictingUrls (name : PackageName) (url1 : String) (url2 : String)
  | conflictingVersions (name : String) (versions : String)
  | disallowedUrl (name : PackageName) (url : Url)
  | distributionType (inner : DistTypeError)
  | fetch (dist : BuiltDist) (source : DistError)
  | fetchAndBuild (dist : SourceDist) (source : DistError)
  | read (dist : PathBuiltDist) (source : DistError)
  | build (dist : PathSourceDist) (source : DistError)
  | noSolution (inner : NoSolutionError)
  | selfDependency (package : PubGrubPackage) (version : Version)
  | failure (message : String)

/-- The PubGrub solver error (`pubgrub::error::PubGrubError` instantiated
at `Infallible` for the dependency provider's error, so the three provider
variants carry an uninhabited payload, exactly as the source's
`unreachable!` arms record). -/
inductive PubGrubError where
  | errorChoosingPackageVersion (never : Empty)
  | errorInShouldCancel (never : Empty)
  | errorRetrievingDependencies (package : PubGrubPackage) (version : Version)
      (never : Empty)
  | failure (message : String)
  | noSolution (derivationTree : DerivationTree)
  | selfDependency (package : PubGrubPackage) (version : Version)

/-- `impl From<PubGrubError> for ResolveError` (error.rs lines 97–128): the
three `Infallible` variants cannot occur; `Failure` maps to `Failure`;
`NoSolution` wraps the derivation tree in a `NoSolutionError` with an empty
available-versions map and absent selector and Python requirement;
`SelfDependency` maps to the dedicated `SelfDependency` variant. -/
def ResolveError.fromPubGrub : PubGrubError → ResolveError
  | .errorChoosingPackageVersion never => never.elim
  | .errorInShouldCancel never => never.elim
  | .errorRetrievingDependencies _ _ never => never.elim
  | .failure message => .failure message
  | .noSolution derivationTree =>
      .noSolution
        { derivation_tree := derivationTree
          available_versions := []
          selector := none
          python_requirement := none }
  | .selfDependency package version => .selfDependency package version

/-- Whether a `ResolveError` is the `NoSolution` variant. -/
def ResolveError.isNoSolution : ResolveError → Bool
  | .noSolution _ => true
  | _ => false

/-- Whether a `ResolveError` is the `Unregistered` variant. -/
def ResolveError.isUnregistered : ResolveError → Bool
  | .unregistered => true
  | _ => false

/-- Whether a `PubGrubError` is the `NoSolution` variant. -/
def PubGrubError.isNoSolution : PubGrubError → Bool
  | .noSolution _ => true
  | _ => false

/-- One iteration of the loop body of `with_available_versions` (error.rs
lines 175–208): `Root` is skipped; the `Installed` virtual package gets the
singleton of the installed interpreter version; the `Target` virtual
package gets the singleton of the target interpreter version; a named
package gets the versions of its version map only when its name is in the
visited set and the index holds a ready map for it. -/
def availInsert (python_requirement : PythonRequirement)
    (visited : VisitedSet) (package_versions : PackageVersionsIndex)
    (acc : AvailableVersions) (package : PubGrubPackage) :
    AvailableVersions :=
  match package with
  | .root _ => acc
  | .python .installed =>
      indexMapInsert acc package [python_requirement.installed]
  | .python .target =>
      indexMapInsert acc package [python_requirement.target]
  | .package name _ _ =>
      if name ∈ visited then
        match onceMapGet package_versions name with
        | some version_map =>
            indexMapInsert acc package (version_map.map Prod.fst)
        | none => acc
      else acc

/-- `NoSolutionError::with_available_versions` (error.rs lines 168–211):
rebuild the available-versions map from the packages of the derivation
tree, then replace the `available_versions` field. -/
def NoSolutionError.with_available_versions (self : NoSolutionError)
    (python_requirement : PythonRequirement) (visited : VisitedSet)
    (package_versions : PackageVersionsIndex) : NoSolutionError :=
  { self with
    available_versions :=
      self.derivation_tree.packages.foldl
        (availInsert python_requirement visited package_versions) [] }

/-- `NoSolutionError::with_selector` (error.rs lines 215–218). -/
def NoSolutionError.with_selector (self : NoSolutionError)
    (selector : CandidateSelector) : NoSolutionError :=
  { self with selector := some selector }

/-- `NoSolutionError::with_python_requirement` (error.rs lines 222–228). -/
def NoSolutionError.with_python_requirement (self : NoSolutionError)
    (python_requirement : PythonRequirement) : NoSolutionError :=
  { self with python_requirement := some python_requirement }

/-- Modelled from the spec: the report formatter's rendering of one
external incompatibility, substituting the attached available versions for
each named package and the environment requirement for the virtual
interpreter packages; narrative form "X requires Y, but only versions
V1..Vn are available". -/
def renderPackage (available_versions : AvailableVersions)
    (package : PubGrubPackage) : String :=
  match indexMapGet available_versions package with
  | none => package.display
  | some versions =>
      package.display ++ " (available: " ++
        String.intercalate ", " versions ++ ")"

/-- Modelled from the spec: narrative rendering of one leaf of the
derivation tree. -/
def renderExtIncompat (available_versions : AvailableVersions) :
    ExtIncompat → String
  | .notRoot pkg version =>
      renderPackage available_versions pkg ++ " " ++ version ++
        " is not the root"
  | .noVersions pkg _ =>
      "no versions of " ++ renderPackage available_versions pkg ++
        " satisfy the requirement"
  | .unavailableDependencies pkg _ =>
      "dependencies of " ++ renderPackage available_versions pkg ++
        " are unavailable"
  | .fromDependencyOf pkg _ dependent _ =>
      renderPackage available_versions dependent ++ " depends on " ++
        renderPackage available_versions pkg

/-- Modelled from the spec: `DefaultStringReporter::report_with_formatter`
(from the pubgrub library) walks the derivation tree and renders the
structured explanation of the unsatisfiable core, deterministically from
the tree and the formatter's context (available versions and Python
requirement). -/
def reportWithFormatter (available_versions : AvailableVersions)
    (python_requirement : Option PythonRequirement) :
    DerivationTree → String
  | .leafExt incompat => renderExtIncompat available_versions incompat
  | .derived _ cause1 cause2 =>
      reportWithFormatter available_versions python_requirement cause1 ++
        "\nAnd because " ++
        reportWithFormatter available_versions python_requirement cause2 ++
        (match python_requirement with
         | none => ""
         | some pyreq =>
             " (Python " ++ pyreq.installed ++ " installed, " ++
               pyreq.target ++ " requested)")

/-- Modelled from the spec: `PubGrubReportFormatter::hints` derives
supplementary hints from the selector policy, such as suggesting relaxing
the pre-release policy. -/
def formatterHints (_tree : DerivationTree)
    (selector : CandidateSelector) : List String :=
  match selector.prereleaseMode with
  | .disallow =>
      ["hint: pre-releases are not allowed; enable them to consider pre-release versions"]
  | _ => []

/-- `impl Display for NoSolutionError` (error.rs lines 141–161): write the
derivation report produced by the formatter, then append every hint,
separated by blank lines, when a selector is attached. -/
def NoSolutionError.display (self : NoSolutionError) : String :=
  let report :=
    reportWithFormatter self.available_versions self.python_requirement
      self.derivation_tree
  match self.selector with
  | none => report
  | some selector =>
      (formatterHints self.derivation_tree selector).foldl
        (fun acc hint => acc ++ "\n\n" ++ hint) report

/-- The rendered message of each `ResolveError` variant, transcribing the
`thiserror` format strings of error.rs lines 22–89 (transparent variants
render their inner error). -/
def ResolveError.display : ResolveError → String
  | .notFound requirement =>
      "Failed to find a version of " ++ requirement ++
        " that satisfies the requirement"
  | .streamTermination => "The request stream terminated unexpectedly"
  | .client inner => inner
  | .trySend inner => inner
  | .join inner => inner
  | .unregistered => "Attempted to wait on an unregistered task"
  | .nameMismatch given metadata =>
      "Package metadata name `" ++ metadata ++
        "` does not match given name `" ++ given ++ "`"
  | .invalidTildeEquals specifier =>
      "~= operator requires at least two release segments: " ++ specifier
  | .conflictingUrls name url1 url2 =>
      "There are conflicting URLs for package `" ++ name ++ "`:\n- " ++
        url1 ++ "\n- " ++ url2
  | .conflictingVersions name versions =>
      "There are conflicting versions for `" ++ name ++ "`: " ++ versions
  | .disallowedUrl name url =>
      "Package `" ++ name ++ "` attempted to resolve via URL: " ++ url ++
        ". URL dependencies must be expressed as direct requirements or constraints. Consider adding `" ++
        name ++ " @ " ++ url ++
        "` to your dependencies or constraints file."
  | .distributionType inner => inner
  | .fetch dist _ => "Failed to download: " ++ dist.display
  | .fetchAndBuild dist _ =>
      "Failed to download and build: " ++ dist.display
  | .read dist _ => "Failed to read: " ++ dist.display
  | .build dist _ => "Failed to build: " ++ dist.display
  | .noSolution inner => inner.display
  | .selfDependency package version =>
      package.display ++ " " ++ version ++ " depends on itself"
  | .failure message => message

/-- Whether the pattern word occurs at the head of the character list. -/
def leadsWith : List Char → List Char → Bool
  | [], _ => true
  | _ :: _, [] => false
  | a :: as, b :: bs => a == b && leadsWith as bs

/-- Whether the pattern word occurs contiguously anywhere in the character
list. -/
def hasSeg (pattern : List Char) : List Char → Bool
  | [] => leadsWith pattern []
  | b :: bs => leadsWith pattern (b :: bs) || hasSeg pattern bs

/-- Whether `pattern` occurs as a contiguous substring of `s`. -/
def strHas (s pattern : String) : Bool := hasSeg pattern.data s.data

theorem leadsWith_self_append (n r : List Char) :
    leadsWith n (n ++ r) = true := by
  induction n with
  | nil => rfl
  | cons a as ih => simp [leadsWith, ih]

theorem hasSeg_of_leadsWith (n l : List Char) (h : leadsWith n l = true) :
    hasSeg n l = true := by
  cases l with
  | nil => exact h
  | cons b bs => simp [hasSeg, h]

theorem hasSeg_cons (n : List Char) (c : Char) (l : List Char)
    (h : hasSeg n l = true) : hasSeg n (c :: l) = true := by
  simp [hasSeg, h]

theorem hasSeg_append (a n b : List Char) :
    hasSeg n (a ++ (n ++ b)) = true := by
  induction a with
  | nil => exact hasSeg_of_leadsWith n (n ++ b) (leadsWith_self_append n b)
  | cons c cs ih => exact hasSeg_cons n c (cs ++ (n ++ b)) ih

theorem hasSeg_of_parts (n l a b : List Char) (h : l = a ++ (n ++ b)) :
    hasSeg n l = true := h ▸ hasSeg_append a n b

theorem indexMapGet_insert (m : AvailableVersions) (k k' : PubGrubPackage)
    (v : List Version) :
    indexMapGet (indexMapInsert m k v) k' =
      if k = k' then some v else indexMapGet m k' := by
  induction m with
  | nil => simp [indexMapInsert, indexMapGet]
  | cons entry rest ih =>
    simp only [indexMapInsert]
    by_cases h1 : entry.1 = k
    · simp only [h1, if_true]
      by_cases h2 : k = k'
      · simp [indexMapGet, h2]
      · have h3 : ¬entry.1 = k' := by rw [h1]; exact h2
        simp [indexMapGet, h2, h3]
    · simp only [h1, if_false, indexMapGet]
      by_cases h2 : entry.1 = k'
      · have hkk : ¬k = k' := fun hkk => h1 (hkk ▸ h2)
        simp [h2, hkk]
      · simp [h2, ih]

/-- The value `with_available_versions` would record for one package: the
loop body viewed as a per-package partial function (`none` when the loop
skips the package). -/
def stepValue (python_requirement : PythonRequirement)
    (visited : VisitedSet) (package_versions : PackageVersionsIndex) :
    PubGrubPackage → Option (List Version)
  | .root _ => none
  | .python .installed => some [python_requirement.installed]
  | .python .target => some [python_requirement.target]
  | .package name _ _ =>
      if name ∈ visited then
        (onceMapGet package_versions name).map (List.map Prod.fst)
      else none

theorem availInsert_eq_stepValue (python_requirement : PythonRequirement)
    (visited : VisitedSet) (package_versions : PackageVersionsIndex)
    (acc : AvailableVersions) (package : PubGrubPackage) :
    availInsert python_requirement visited package_versions acc package =
      match stepValue python_requirement visited package_versions package with
      | none => acc
      | some v => indexMapInsert acc package v := by
  cases package with
  | root v => rfl
  | python py => cases py <;> rfl
  | package name extra url =>
    simp only [availInsert, stepValue]
    by_cases h : name ∈ visited
    · simp only [h, if_true]
      cases onceMapGet package_versions name <;> rfl
    · simp [h]

theorem get_foldl_origin (python_requirement : PythonRequirement)
    (visited : VisitedSet) (package_versions : PackageVersionsIndex)
    (pkgs : List PubGrubPackage) (m : AvailableVersions)
    (k : PubGrubPackage) (vs : List Version)
    (h : indexMapGet
        (pkgs.foldl (availInsert python_requirement visited package_versions) m)
        k = some vs) :
    indexMapGet m k = some vs ∨
      stepValue python_requirement visited package_versions k = some vs := by
  induction pkgs generalizing m with
  | nil => exact Or.inl h
  | cons p ps ih =>
    rcases ih _ h with hl | hr
    · rw [availInsert_eq_stepValue] at hl
      rcases hsv : stepValue python_requirement visited package_versions p with
        _ | v
      · rw [hsv] at hl
        exact Or.inl hl
      · rw [hsv] at hl
        rw [indexMapGet_insert] at hl
        by_cases hpk : p = k
        · subst hpk
          simp at hl
          subst hl
          exact Or.inr hsv
        · simp [hpk] at hl
          exact Or.inl hl
    · exact Or.inr hr

theorem get_foldl_mem (python_requirement : PythonRequirement)
    (visited : VisitedSet) (package_versions : PackageVersionsIndex)
    (pkgs : List PubGrubPackage) (m : AvailableVersions)
    (k : PubGrubPackage) (vs : List Version)
    (h : indexMapGet
        (pkgs.foldl (availInsert python_requirement visited package_versions) m)
        k = some vs) :
    (∃ vs', indexMapGet m k = some vs') ∨ k ∈ pkgs := by
  induction pkgs generalizing m with
  | nil => exact Or.inl ⟨vs, h⟩
  | cons p ps ih =>
    rcases ih _ h with ⟨vs', hl⟩ | hr
    · rw [availInsert_eq_stepValue] at hl
      rcases hsv : stepValue python_requirement visited package_versions p with
        _ | v
      · rw [hsv] at hl
        exact Or.inl ⟨vs', hl⟩
      · rw [hsv] at hl
        rw [indexMapGet_insert] at hl
        by_cases hpk : p = k
        · exact Or.inr (by simp [hpk])
        · simp [hpk] at hl
          exact Or.inl ⟨vs', hl⟩
    · exact Or.inr (List.mem_cons_of_mem p hr)

theorem get_step_preserved (python_requirement : PythonRequirement)
    (visited : VisitedSet) (package_versions : PackageVersionsIndex)
    (m : AvailableVersions) (p k : PubGrubPackage) (vs : List Version)
    (hk : stepValue python_requirement visited package_versions k = some vs)
    (h : indexMapGet m k = some vs) :
    indexMapGet (availInsert python_requirement visited package_versions m p)
      k = some vs := by
  rw [availInsert_eq_stepValue]
  rcases hsv : stepValue python_requirement visited package_versions p with
    _ | v
  · exact h
  · rw [indexMapGet_insert]
    by_cases hpk : p = k
    · subst hpk
      rw [hsv] at hk
      simp at hk
      simp [hk]
    · simp [hpk, h]

theorem get_foldl_preserved (python_requirement : PythonRequirement)
    (visited : VisitedSet) (package_versions : PackageVersionsIndex)
    (pkgs : List PubGrubPackage) (m : AvailableVersions)
    (k : PubGrubPackage) (vs : List Version)
    (hk : stepValue python_requirement visited package_versions k = some vs)
    (h : indexMapGet m k = some vs) :
    indexMapGet
      (pkgs.foldl (availInsert python_requirement visited package_versions) m)
      k = some vs := by
  induction pkgs generalizing m with
  | nil => exact h
  | cons p ps ih =>
    exact ih _
      (get_step_preserved python_requirement visited package_versions m p k vs
        hk h)

theorem get_foldl_of_mem (python_requirement : PythonRequirement)
    (visited : VisitedSet) (package_versions : PackageVersionsIndex)
    (pkgs : List PubGrubPackage) (m : AvailableVersions)
    (k : PubGrubPackage) (vs : List Version)
    (hk : stepValue python_requirement visited package_versions k = some vs)
    (hmem : k ∈ pkgs) :
    indexMapGet
      (pkgs.foldl (availInsert python_requirement visited package_versions) m)
      k = some vs := by
  induction pkgs generalizing m with
  | nil => cases hmem
  | cons p ps ih =>
    rcases List.mem_cons.mp hmem with hpk | htail
    · subst hpk
      apply get_foldl_preserved python_requirement visited package_versions ps
        _ k vs hk
      rw [availInsert_eq_stepValue, hk, indexMapGet_insert]
      simp
    · exact ih _ htail

/-- Sample Python requirement used to instantiate witnesses. -/
def samplePython : PythonRequirement :=
  { installed := "3.11.1", target := "3.8" }

/-- Sample derivation tree mentioning the root, a named package and both
virtual interpreter packages. -/
def sampleTree : DerivationTree :=
  .derived [(.root none, [])]
    (.leafExt (.fromDependencyOf (.package "flask" none none) []
      (.root none) []))
    (.leafExt (.fromDependencyOf (.python .installed) []
      (.python .target) []))

/-- Sample unenriched `NoSolutionError` over `sampleTree`. -/
def sampleError : NoSolutionError :=
  { derivation_tree := sampleTree
    available_versions := []
    selector := none
    python_requirement := none }

/-- Sample visited set. -/
def sampleVisited : VisitedSet := ["flask"]

/-- Sample ready entries of the memoized package-version index. -/
def sampleIndex : PackageVersionsIndex :=
  [("flask", [("1.0", "flask-1.0.whl"), ("2.0", "flask-2.0.whl")])]

/-- C1: after `with_available_versions`, the available-versions map holds
versions for a named package only if that package's name is in the visited
set; a never-visited package is never recorded as available. -/
theorem claim1_available_only_if_visited
    (e : NoSolutionError) (python_requirement : PythonRequirement)
    (visited : VisitedSet) (package_versions : PackageVersionsIndex)
    (name : PackageName) (extra : Option ExtraName) (url : Option Url)
    (vs : List Version)
    (h : indexMapGet
        (e.with_available_versions python_requirement visited
          package_versions).available_versions
        (.package name extra url) = some vs) :
    name ∈ visited := by
  rcases get_foldl_origin python_requirement visited package_versions
      e.derivation_tree.packages [] (.package name extra url) vs h with
    hl | hr
  · simp [indexMapGet] at hl
  · simp only [stepValue] at hr
    by_cases hv : name ∈ visited
    · exact hv
    · simp [hv] at hr

/-- Witness for C1 at concrete inputs. -/
theorem claim1_witness : "flask" ∈ sampleVisited :=
  claim1_available_only_if_visited sampleError samplePython sampleVisited
    sampleIndex "flask" none none ["1.0", "2.0"] (by decide)

/-- C2: the conversion from the PubGrub error maps a self-dependency of
package `P` at version `V` to the dedicated `SelfDependency` variant,
never to `NoSolution`, and the rendered message names both the package and
the version. -/
theorem claim2_self_dependency_distinct
    (package : PubGrubPackage) (version : Version) :
    ResolveError.fromPubGrub (.selfDependency package version) =
      .selfDependency package version ∧
    (ResolveError.fromPubGrub
      (.selfDependency package version)).isNoSolution = false ∧
    strHas ((ResolveError.fromPubGrub
        (.selfDependency package version)).display)
      package.display = true ∧
    strHas ((ResolveError.fromPubGrub
        (.selfDependency package version)).display)
      version = true := by
  refine ⟨rfl, rfl, ?_, ?_⟩
  · show strHas (package.display ++ " " ++ version ++ " depends on itself")
      package.display = true
    simp only [strHas, String.data_append]
    exact hasSeg_of_parts package.display.data _ []
      ((" " : String).data ++
        (version.data ++ (" depends on itself" : String).data))
      (by simp)
  · show strHas (package.display ++ " " ++ version ++ " depends on itself")
      version = true
    simp only [strHas, String.data_append]
    exact hasSeg_of_parts version.data _
      (package.display.data ++ (" " : String).data)
      (" depends on itself" : String).data
      (by simp)

/-- C3: the conversion gives an enrichable `NoSolutionError` payload
exactly to the PubGrub `NoSolution` outcome, and immediately after
conversion the available-versions map is empty and the selector and Python
requirement are absent. -/
theorem claim3_only_no_solution_enriched :
    (∀ t : DerivationTree,
      ResolveError.fromPubGrub (.noSolution t) =
        .noSolution
          { derivation_tree := t
            available_versions := []
            selector := none
            python_requirement := none }) ∧
    (∀ e : PubGrubError,
      (ResolveError.fromPubGrub e).isNoSolution = e.isNoSolution) := by
  refine ⟨fun t => rfl, fun e => ?_⟩
  cases e with
  | errorChoosingPackageVersion never => exact never.elim
  | errorInShouldCancel never => exact never.elim
  | errorRetrievingDependencies p v never => exact never.elim
  | failure m => rfl
  | noSolution t => rfl
  | selfDependency p v => rfl

/-- Counterexample to C4 as stated: a concrete `ConflictingUrls` error
whose rendered message contains no `name @ url` remediation entry and no
remediation guidance at all. -/
theorem claim4_counterexample :
    ResolveError.display
        (.conflictingUrls "flask" "https://a/f1.whl" "https://b/f2.whl") =
      "There are conflicting URLs for package `flask`:\n- https://a/f1.whl\n- https://b/f2.whl" ∧
    strHas (ResolveError.display
        (.conflictingUrls "flask" "https://a/f1.whl" "https://b/f2.whl"))
      "flask @ " = false ∧
    strHas (ResolveError.display
        (.conflictingUrls "flask" "https://a/f1.whl" "https://b/f2.whl"))
      " @ " = false ∧
    strHas (ResolveError.display
        (.conflictingUrls "flask" "https://a/f1.whl" "https://b/f2.whl"))
      "Consider adding" = false := by
  exact ⟨rfl, by decide, by decide, by decide⟩

/-- C4 (amended): every `DisallowedUrl` message contains the remediation
guidance with the explicit entry to add, rendered as
"Consider adding \x7bname\x7d @ \x7burl\x7d"; `ConflictingUrls` carries no
such remediation (see the counterexample). -/
theorem claim4_disallowed_url_remediation
    (name : PackageName) (url : Url) :
    strHas ((ResolveError.disallowedUrl name url).display)
      ("Consider adding `" ++ name ++ " @ " ++ url ++ "`") = true := by
  show strHas
    ("Package `" ++ name ++ "` attempted to resolve via URL: " ++ url ++
      ". URL dependencies must be expressed as direct requirements or constraints. Consider adding `" ++
      name ++ " @ " ++ url ++ "` to your dependencies or constraints file.")
    ("Consider adding `" ++ name ++ " @ " ++ url ++ "`") = true
  simp only [strHas, String.data_append]
  refine hasSeg_of_parts _ _
    (("Package `" : String).data ++
      (name.data ++
        (("` attempted to resolve via URL: " : String).data ++
          (url.data ++
            (". URL dependencies must be expressed as direct requirements or constraints. " : String).data))))
    (" to your dependencies or constraints file." : String).data ?_
  simp

/-- C5: rendering a `NoSolutionError` is a pure function of the derivation
tree, the available-versions map, the selector and the Python requirement:
two errors agreeing on those four fields render identically. -/
theorem claim5_display_deterministic (e1 e2 : NoSolutionError)
    (h1 : e1.derivation_tree = e2.derivation_tree)
    (h2 : e1.available_versions = e2.available_versions)
    (h3 : e1.selector = e2.selector)
    (h4 : e1.python_requirement = e2.python_requirement) :
    e1.display = e2.display := by
  cases e1
  cases e2
  cases h1
  cases h2
  cases h3
  cases h4
  rfl

/-- Witness for C5 at a concrete error. -/
theorem claim5_witness : sampleError.display = sampleError.display :=
  claim5_display_deterministic sampleError sampleError rfl rfl rfl rfl

/-- C6: fetch failures are wrapped by artifact kind: a built-artifact
failure carries the built distribution and renders "Failed to download",
a source-artifact failure carries the source distribution and renders
"Failed to download and build", and the two variants are distinct. -/
theorem claim6_fetch_variants (built : BuiltDist) (sdist : SourceDist)
    (err1 err2 : DistError) :
    (ResolveError.fetch built err1).display =
      "Failed to download: " ++ built.display ∧
    (ResolveError.fetchAndBuild sdist err2).display =
      "Failed to download and build: " ++ sdist.display ∧
    ResolveError.fetch built err1 ≠ ResolveError.fetchAndBuild sdist err2 :=
  ⟨rfl, rfl, fun h => ResolveError.noConfusion h⟩

/-- C7: after enrichment, each virtual interpreter package occurring in the
derivation tree is mapped to exactly one available version: the installed
interpreter version for `Installed` and the target interpreter version for
`Target`. -/
theorem claim7_virtual_interpreter_versions
    (e : NoSolutionError) (python_requirement : PythonRequirement)
    (visited : VisitedSet) (package_versions : PackageVersionsIndex) :
    (PubGrubPackage.python .installed ∈ e.derivation_tree.packages →
      indexMapGet
        (e.with_available_versions python_requirement visited
          package_versions).available_versions
        (.python .installed) = some [python_requirement.installed]) ∧
    (PubGrubPackage.python .target ∈ e.derivation_tree.packages →
      indexMapGet
        (e.with_available_versions python_requirement visited
          package_versions).available_versions
        (.python .target) = some [python_requirement.target]) := by
  constructor <;> intro hmem <;>
    exact get_foldl_of_mem python_requirement visited package_versions
      e.derivation_tree.packages [] _ _ rfl hmem

/-- Witness for C7 at concrete inputs. -/
theorem claim7_witness :
    indexMapGet
      (sampleError.with_available_versions samplePython sampleVisited
        sampleIndex).available_versions
      (.python .installed) = some [samplePython.installed] ∧
    indexMapGet
      (sampleError.with_available_versions samplePython sampleVisited
        sampleIndex).available_versions
      (.python .target) = some [samplePython.target] :=
  ⟨(claim7_virtual_interpreter_versions sampleError samplePython
      sampleVisited sampleIndex).1 (by decide),
   (claim7_virtual_interpreter_versions sampleError samplePython
      sampleVisited sampleIndex).2 (by decide)⟩

/-- C8: a wait on an unregistered task has its own dedicated variant with
the message "Attempted to wait on an unregistered task", and no other
error of the taxonomy is that variant. -/
theorem claim8_unregistered_distinct :
    ResolveError.unregistered.display =
      "Attempted to wait on an unregistered task" ∧
    ∀ e : ResolveError, e.isUnregistered = true ↔ e = .unregistered := by
  refine ⟨rfl, fun e => ?_⟩
  cases e <;> simp [ResolveError.isUnregistered]

/-- C9: after `with_available_versions`, every key of the available-versions
map occurs in the derivation tree, and the synthetic root package is never
a key. -/
theorem claim9_keys_in_derivation_tree
    (e : NoSolutionError) (python_requirement : PythonRequirement)
    (visited : VisitedSet) (package_versions : PackageVersionsIndex)
    (k : PubGrubPackage) (vs : List Version)
    (h : indexMapGet
        (e.with_available_versions python_requirement visited
          package_versions).available_versions k = some vs) :
    k ∈ e.derivation_tree.packages ∧ ∀ v, k ≠ .root v := by
  constructor
  · rcases get_foldl_mem python_requirement visited package_versions
        e.derivation_tree.packages [] k vs h with ⟨vs', hl⟩ | hr
    · simp [indexMapGet] at hl
    · exact hr
  · intro v hkv
    rcases get_foldl_origin python_requirement visited package_versions
        e.derivation_tree.packages [] k vs h with hl | hr
    · simp [indexMapGet] at hl
    · rw [hkv] at hr
      simp [stepValue] at hr

/-- Witness for C9 at concrete inputs. -/
theorem claim9_witness :
    PubGrubPackage.package "flask" none none ∈
      sampleError.derivation_tree.packages ∧
    ∀ v, PubGrubPackage.package "flask" none none ≠ .root v :=
  claim9_keys_in_derivation_tree sampleError samplePython sampleVisited
    sampleIndex (.package "flask" none none) ["1.0", "2.0"] (by decide)

/-- C10: the enrichment operations are frame-preserving: each of
`with_selector`, `with_python_requirement` and `with_available_versions`
updates its own field and leaves every other field, the derivation tree
included, unchanged. -/
theorem claim10_enrichment_frame
    (e : NoSolutionError) (selector : CandidateSelector)
    (python_requirement : PythonRequirement) (visited : VisitedSet)
    (package_versions : PackageVersionsIndex) :
    ((e.with_selector selector).derivation_tree = e.derivation_tree ∧
      (e.with_selector selector).available_versions =
        e.available_versions ∧
      (e.with_selector selector).python_requirement =
        e.python_requirement ∧
      (e.with_selector selector).selector = some selector) ∧
    ((e.with_python_requirement python_requirement).derivation_tree =
        e.derivation_tree ∧
      (e.with_python_requirement python_requirement).available_versions =
        e.available_versions ∧
      (e.with_python_requirement python_requirement).selector =
        e.selector ∧
      (e.with_python_requirement python_requirement).python_requirement =
        some python_requirement) ∧
    ((e.with_available_versions python_requirement visited
        package_versions).derivation_tree = e.derivation_tree ∧
      (e.with_available_versions python_requirement visited
        package_versions).selector = e.selector ∧
      (e.with_available_versions python_requirement visited
        package_versions).python_requirement = e.python_requirement) :=
  ⟨⟨rfl, rfl, rfl, rfl⟩, ⟨rfl, rfl, rfl, rfl⟩, rfl, rfl, rfl⟩

end PuffinResolver
